import Mathlib

/-!
Shallow embedding of the Flowlytix subscription backend's license &
subscription validation engine (`app/domain/entities/subscription.py`,
`app/domain/services/subscription_service.py`, `app/core/security.py`).

Conventions of the embedding:
* `datetime` values are integers (seconds); `timedelta(days=d)` is `d * 86400`.
  Every method that reads `datetime.now(timezone.utc)` takes an explicit
  `now : Int` argument.
* UUIDs are natural numbers.
* Fallible methods (which `raise` in Python) return `Except DomainError _`.
* Mutation of entities becomes explicit state passing: methods return the
  updated entity; the repository layer is an in-memory list of subscriptions.
* Fields of the Python classes that no verified operation reads or writes
  (price, currency, auto_renew, renewal_period_days, metadata) are omitted.
-/

namespace Flowlytix

/-- Seconds in `timedelta(days = d)`. -/
def daysToSec (d : Nat) : Int := (d : Int) * 86400

/-- `SubscriptionStatus` enumeration (subscription.py). -/
inductive SubscriptionStatus where
  | active
  | expired
  | suspended
  | cancelled
  | pending
deriving DecidableEq, Repr, Inhabited

/-- `SubscriptionTier` enumeration (subscription.py). -/
inductive SubscriptionTier where
  | basic
  | professional
  | enterprise
  | trial
deriving DecidableEq, Repr, Inhabited

/-- A feature value: Python tier feature dicts mix booleans and integers. -/
inductive FeatureVal where
  | boolVal (b : Bool)
  | intVal (n : Int)
deriving DecidableEq, Repr, Inhabited

/-- `FeatureSet.TIER_FEATURES` (subscription.py). -/
def TIER_FEATURES : SubscriptionTier → List (String × FeatureVal)
  | .basic =>
    [("max_customers", .intVal 100), ("max_products", .intVal 500),
     ("analytics", .boolVal false), ("multi_location", .boolVal false),
     ("api_access", .boolVal false), ("priority_support", .boolVal false)]
  | .professional =>
    [("max_customers", .intVal 1000), ("max_products", .intVal 5000),
     ("analytics", .boolVal true), ("multi_location", .boolVal true),
     ("api_access", .boolVal true), ("priority_support", .boolVal false)]
  | .enterprise =>
    [("max_customers", .intVal (-1)), ("max_products", .intVal (-1)),
     ("analytics", .boolVal true), ("multi_location", .boolVal true),
     ("api_access", .boolVal true), ("priority_support", .boolVal true)]
  | .trial =>
    [("max_customers", .intVal 10), ("max_products", .intVal 50),
     ("analytics", .boolVal false), ("multi_location", .boolVal false),
     ("api_access", .boolVal false), ("priority_support", .boolVal false)]

/-- Python `dict.update`: existing keys are overwritten in place, new keys
appended in iteration order. -/
def dictUpdate (base overrides : List (String × FeatureVal)) :
    List (String × FeatureVal) :=
  (base.map fun kv =>
    match overrides.find? (fun kv2 => kv2.1 == kv.1) with
    | some kv2 => kv2
    | none => kv)
  ++ overrides.filter (fun kv2 => !(base.any fun kv => kv.1 == kv2.1))

/-- `FeatureSet` value object (subscription.py). -/
structure FeatureSet where
  tier : SubscriptionTier
  features : List (String × FeatureVal)
deriving DecidableEq, Repr, Inhabited

/-- `FeatureSet.__init__`: tier defaults, overridden by custom features. -/
def FeatureSet.make (tier : SubscriptionTier)
    (custom_features : Option (List (String × FeatureVal))) : FeatureSet :=
  { tier
    features :=
      match custom_features with
      | none => TIER_FEATURES tier
      | some custom => dictUpdate (TIER_FEATURES tier) custom }

/-- `Device` entity (subscription.py). -/
structure Device where
  id : Nat
  subscription_id : Nat
  device_id : String
  device_name : Option String := none
  device_type : Option String := none
  fingerprint : Option String := none
  os_name : Option String := none
  os_version : Option String := none
  app_version : Option String := none
  is_active : Bool := true
  last_seen_at : Option Int := none
  created_at : Int := 0
  updated_at : Int := 0
deriving DecidableEq, Repr, Inhabited

/-- `Device.activate`. -/
def Device.activate (d : Device) (now : Int) : Device :=
  { d with is_active := true, updated_at := now }

/-- `Device.deactivate`. -/
def Device.deactivate (d : Device) (now : Int) : Device :=
  { d with is_active := false, updated_at := now }

/-- `Device.update_last_seen`. -/
def Device.update_last_seen (d : Device) (now : Int) : Device :=
  { d with last_seen_at := some now, updated_at := now }

/-- `Subscription` entity (subscription.py). -/
structure Subscription where
  id : Nat
  customer_id : Nat
  license_key : String
  tier : SubscriptionTier
  status : SubscriptionStatus := .pending
  max_devices : Nat := 1
  starts_at : Int
  expires_at : Option Int := none
  grace_period_days : Nat := 7
  devices : List Device := []
  feature_set : FeatureSet
  created_at : Int := 0
  updated_at : Int := 0
deriving DecidableEq, Repr, Inhabited

/-- `Subscription.is_active` — the spec's `is_usable_now()`. -/
def Subscription.is_active (s : Subscription) (now : Int) : Bool :=
  if s.status != SubscriptionStatus.active then false
  else if now < s.starts_at then false
  else
    match s.expires_at with
    | some e =>
      if now > e + daysToSec s.grace_period_days then false else true
    | none => true

/-- `Subscription.is_expired` — expired beyond the grace period. -/
def Subscription.is_expired (s : Subscription) (now : Int) : Bool :=
  match s.expires_at with
  | none => false
  | some e => decide (now > e + daysToSec s.grace_period_days)

/-- `Subscription.is_in_grace_period`. -/
def Subscription.is_in_grace_period (s : Subscription) (now : Int) : Bool :=
  match s.expires_at with
  | none => false
  | some e =>
    decide (e < now) && decide (now ≤ e + daysToSec s.grace_period_days)

/-- `Subscription.days_until_expiry` (`timedelta.days` floors). -/
def Subscription.days_until_expiry (s : Subscription) (now : Int) :
    Option Int :=
  match s.expires_at with
  | none => none
  | some e => some (max 0 ((e - now).fdiv 86400))

/-- `Subscription.can_add_device`. -/
def Subscription.can_add_device (s : Subscription) : Bool :=
  decide ((s.devices.filter fun d => d.is_active).length < s.max_devices)

/-- `Subscription.get_device` — first device with the client-supplied id. -/
def Subscription.get_device (s : Subscription) (device_id : String) :
    Option Device :=
  s.devices.find? fun d => d.device_id == device_id

/-- Business-rule errors raised by the domain layer (`core/exceptions.py`):
`LicenseKeyInvalidException{reason}`, `SubscriptionExpiredException
{subscription_id, expired_at}`, `DeviceLimitExceededException
{current_devices, max_devices}`. -/
inductive DomainError where
  | licenseKeyInvalid (reason : String)
  | subscriptionExpired (subscription_id : Nat) (expired_at : Option Int)
  | deviceLimitExceeded (current_devices : Nat) (max_devices : Nat)
deriving DecidableEq, Repr, Inhabited

/-- `Subscription.add_device`: raises `DeviceLimitExceededException` when
`can_add_device()` is false; otherwise binds the device to the subscription
id and appends it. -/
def Subscription.add_device (s : Subscription) (device : Device) (now : Int) :
    Except DomainError Subscription :=
  if !s.can_add_device then
    .error (.deviceLimitExceeded
      (s.devices.filter fun d => d.is_active).length s.max_devices)
  else
    .ok { s with
          devices := s.devices ++ [{ device with subscription_id := s.id }]
          updated_at := now }

/-- The loop body of `Subscription.remove_device`: deactivate the first
device whose client id matches; `none` when no device matches. -/
def removeFirstMatch : List Device → String → Int → Option (List Device)
  | [], _, _ => none
  | d :: rest, device_id, now =>
    if d.device_id == device_id then some (d.deactivate now :: rest)
    else (removeFirstMatch rest device_id now).map fun ds => d :: ds

/-- `Subscription.remove_device`: flips the first matching device's active
flag off and returns `true`; returns `false` when no device matches. -/
def Subscription.remove_device (s : Subscription) (device_id : String)
    (now : Int) : Bool × Subscription :=
  match removeFirstMatch s.devices device_id now with
  | some ds => (true, { s with devices := ds, updated_at := now })
  | none => (false, s)

/-- `Subscription.activate` (status transition only). -/
def Subscription.activate (s : Subscription) (now : Int) : Subscription :=
  { s with status := .active, updated_at := now }

/-- `Subscription.suspend`. -/
def Subscription.suspend (s : Subscription) (now : Int) : Subscription :=
  { s with status := .suspended, updated_at := now }

/-- `Subscription.cancel`: status to cancelled and deactivate all devices. -/
def Subscription.cancel (s : Subscription) (now : Int) : Subscription :=
  { s with
    status := .cancelled
    devices := s.devices.map fun d => d.deactivate now
    updated_at := now }

/-- `Subscription.resume`: status back to active; the loop activates every
device whose active flag is currently false. -/
def Subscription.resume (s : Subscription) (now : Int) : Subscription :=
  { s with
    status := .active
    devices := s.devices.map fun d => if !d.is_active then d.activate now else d
    updated_at := now }

/-- `Subscription.extend_expiry`. -/
def Subscription.extend_expiry (s : Subscription) (days : Nat) (now : Int) :
    Subscription :=
  { s with
    expires_at :=
      match s.expires_at with
      | some e => some (e + daysToSec days)
      | none => some (now + daysToSec days)
    updated_at := now }

/-- Outcome of `Subscription.validate_for_activation` (the `action` key of
the returned dict, with the `device` entry where present). -/
inductive ActivationOutcome where
  | alreadyActive (device : Device)
  | reactivated (device : Device)
  | canActivate
deriving DecidableEq, Repr, Inhabited

/-- The `action` string of the Python result dict. -/
def ActivationOutcome.action : ActivationOutcome → String
  | .alreadyActive _ => "already_active"
  | .reactivated _ => "reactivated"
  | .canActivate => "can_activate"

/-- The `message` string of the Python result dict. -/
def ActivationOutcome.message : ActivationOutcome → String
  | .alreadyActive _ => "Device is already activated"
  | .reactivated _ => "Device reactivated successfully"
  | .canActivate => "Device can be activated"

/-- `existing_device.activate()` mutates the device held inside
`self.devices`; in the functional embedding the first matching device in the
list is replaced by its activated copy. -/
def activateFirstMatch : List Device → String → Int → List Device
  | [], _, _ => []
  | d :: rest, device_id, now =>
    if d.device_id == device_id then d.activate now :: rest
    else d :: activateFirstMatch rest device_id now

/-- `Subscription.validate_for_activation`: raises
`SubscriptionExpiredException` when `is_expired()`; short-circuits on an
already-active device; reactivates a bound-but-inactive device in place;
otherwise raises `DeviceLimitExceededException` unless `can_add_device()`. -/
def Subscription.validate_for_activation (s : Subscription)
    (device_id : String) (now : Int) :
    Except DomainError (ActivationOutcome × Subscription) :=
  if s.is_expired now then
    .error (.subscriptionExpired s.id s.expires_at)
  else
    match s.get_device device_id with
    | some existing_device =>
      if existing_device.is_active then
        .ok (.alreadyActive existing_device, s)
      else
        .ok (.reactivated (existing_device.activate now),
             { s with devices := activateFirstMatch s.devices device_id now })
    | none =>
      if !s.can_add_device then
        .error (.deviceLimitExceeded
          (s.devices.filter fun d => d.is_active).length s.max_devices)
      else
        .ok (.canActivate, s)

/-- The dict produced by `Subscription.to_token_payload`. -/
structure SubscriptionTokenData where
  id : Nat
  customer_id : Nat
  license_key : String
  tier : SubscriptionTier
  features : List (String × FeatureVal)
  device_id : String
  expires_at : Option Int
  grace_period_days : Nat
  status : SubscriptionStatus
deriving DecidableEq, Repr, Inhabited

/-- `Subscription.to_token_payload`. -/
def Subscription.to_token_payload (s : Subscription) (device_id : String) :
    SubscriptionTokenData :=
  { id := s.id
    customer_id := s.customer_id
    license_key := s.license_key
    tier := s.tier
    features := s.feature_set.features
    device_id := device_id
    expires_at := s.expires_at
    grace_period_days := s.grace_period_days
    status := s.status }

/-! ## Asymmetric token authority (`core/security.py`, `JWTManager`)

The RSA key pair and the JOSE wire encoding are external library facts; the
embedding models a key pair by an opaque key id and a signed token as the
claim payload together with the id of the key that signed it.
`jwt.decode` with matching key, audience and issuer recovers exactly the
encoded payload; signature/audience/issuer mismatches and expiry map to the
exception branches of `verify_subscription_token`. -/

/-- An RSA key pair, abstracted to an opaque identity. -/
structure RSAKeyPair where
  keyId : Nat
deriving DecidableEq, Repr, Inhabited

/-- The JWT claim set built by `generate_subscription_token`. -/
structure TokenPayload where
  subscription_id : Nat
  customer_id : Nat
  tier : SubscriptionTier
  features : List (String × FeatureVal)
  device_id : String
  expires_at : Option Int
  grace_period_days : Nat
  iss : String
  aud : String
  iat : Int
  exp : Int
  jti : Nat
deriving DecidableEq, Repr, Inhabited

/-- A signed JWT: payload plus the identity of the signing key. -/
structure SignedToken where
  payload : TokenPayload
  signedWith : Nat
deriving DecidableEq, Repr, Inhabited

/-- `JWTManager.generate_subscription_token`: fixed issuer/audience, `iat`
now, `exp` a fixed 30-day ceiling, fresh `jti`. -/
def generate_subscription_token (kp : RSAKeyPair)
    (subscription_data : SubscriptionTokenData) (now : Int) (jti : Nat) :
    SignedToken :=
  { payload :=
      { subscription_id := subscription_data.id
        customer_id := subscription_data.customer_id
        tier := subscription_data.tier
        features := subscription_data.features
        device_id := subscription_data.device_id
        expires_at := subscription_data.expires_at
        grace_period_days := subscription_data.grace_period_days
        iss := "flowlytix-licensing"
        aud := "flowlytix-app"
        iat := now
        exp := now + daysToSec 30
        jti := jti }
    signedWith := kp.keyId }

/-- The error outcomes of `verify_subscription_token`. -/
inductive TokenError where
  | token_expired
  | invalid_token
  | verification_error
deriving DecidableEq, Repr, Inhabited

/-- `JWTManager.verify_subscription_token`: signature, expiry, audience and
issuer checks, returning a structured outcome rather than raising. -/
def verify_subscription_token (kp : RSAKeyPair) (token : SignedToken)
    (now : Int) : Except TokenError TokenPayload :=
  if token.signedWith != kp.keyId then .error .invalid_token
  else if token.payload.exp < now then .error .token_expired
  else if token.payload.aud != "flowlytix-app" then .error .invalid_token
  else if token.payload.iss != "flowlytix-licensing" then .error .invalid_token
  else .ok token.payload

/-! ## License key codec (`core/security.py`, `LicenseKeyGenerator`)

Keys are modelled as `List Char`.  `secrets.token_urlsafe(n)[:n]` is
modelled by `n` draws from an arbitrary character source `rand` ranged over
the base64url alphabet; the binder is named `pfx` because `prefix` is
reserved in Lean. -/

/-- The characters `secrets.token_urlsafe` can produce. -/
def urlsafeAlphabet : List Char :=
  "ABCDEFGHIJKLMNOPQRSTUVWXYZabcdefghijklmnopqrstuvwxyz0123456789-_".toList

/-- `.upper()` then `.replace('-', '0').replace('_', '1')` applied per
character. -/
def transformChar (c : Char) : Char :=
  if c = '-' then '0' else if c = '_' then '1' else c.toUpper

/-- `LicenseKeyGenerator.generate_license_key` (default `length` is
`settings.license_key_length = 32`). -/
def generate_license_key (pfx : List Char) (length : Nat)
    (rand : Nat → Char) : List Char :=
  let key_length := length - pfx.length - 3
  let part_length := key_length / 4
  let part := fun (i : Nat) =>
    (List.range part_length).map fun j =>
      transformChar (rand (i * part_length + j))
  pfx ++ '-' :: (part 0 ++ '-' :: (part 1 ++ '-' :: (part 2 ++ '-' :: part 3)))

/-- Python `str.split('-')`. -/
def splitOnDash : List Char → List (List Char)
  | [] => [[]]
  | c :: rest =>
    match splitOnDash rest with
    | [] => [[]]
    | p :: ps => if c = '-' then [] :: p :: ps else (c :: p) :: ps

/-- Python `str.isalnum()` (false on the empty string). -/
def isalnumStr (p : List Char) : Bool :=
  !p.isEmpty && p.all Char.isAlphanum

/-- `LicenseKeyGenerator.validate_license_key_format`. -/
def validate_license_key_format (license_key : List Char) : Bool :=
  if license_key.isEmpty then false
  else
    let parts := splitOnDash license_key
    if parts.length != 5 then false
    else if parts.headI != ['F', 'L'] then false
    else (parts.drop 1).all fun p => isalnumStr p && decide (4 ≤ p.length)

/-! ## Validation service (`domain/services/subscription_service.py`)

The repository contract is modelled by an in-memory store: a list of
subscriptions, each holding its device rows.  `uuid4()` and the JWT `jti`
become explicit fresh-value arguments; `datetime.now` becomes `now`. -/

/-- `ISubscriptionRepository.get_by_license_key`. -/
def subscriptionRepoGetByLicenseKey (store : List Subscription)
    (license_key : String) : Option Subscription :=
  store.find? fun s => s.license_key == license_key

/-- `ISubscriptionRepository.update`: replace the row with the same id. -/
def subscriptionRepoUpdate (store : List Subscription) (s : Subscription) :
    List Subscription :=
  store.map fun x => if x.id == s.id then s else x

/-- `IDeviceRepository.update`: replace the device row with the same id,
wherever it lives. -/
def deviceRepoUpdate (store : List Subscription) (d : Device) :
    List Subscription :=
  store.map fun s =>
    { s with devices := s.devices.map fun x => if x.id == d.id then d else x }

/-- In-memory aliasing: mutating a device object also updates the copy held
in `subscription.devices`. -/
def Subscription.updateDeviceById (s : Subscription) (d : Device) :
    Subscription :=
  { s with devices := s.devices.map fun x => if x.id == d.id then d else x }

/-- The `device_info` dict accepted by `activate_license`. -/
structure DeviceInfo where
  device_name : Option String := none
  device_type : Option String := none
  fingerprint : Option String := none
  os_name : Option String := none
  os_version : Option String := none
  app_version : Option String := none
deriving DecidableEq, Repr, Inhabited

/-- The dict returned by `SubscriptionService.activate_license`. -/
structure ActivateResponse where
  token : SignedToken
  subscription : Subscription
  device : Device
  action : String
  message : String
  expires_at : Option Int
deriving DecidableEq, Repr, Inhabited

/-- The `Device(...)` constructor call inside `activate_license`'s
`can_activate` branch. -/
def mkActivationDevice (subscription : Subscription) (device_id : String)
    (device_info : Option DeviceInfo) (fresh_device_id : Nat) (now : Int) :
    Device :=
  { id := fresh_device_id
    subscription_id := subscription.id
    device_id := device_id
    device_name := device_info.bind fun i => i.device_name
    device_type := device_info.bind fun i => i.device_type
    fingerprint := device_info.bind fun i => i.fingerprint
    os_name := device_info.bind fun i => i.os_name
    os_version := device_info.bind fun i => i.os_version
    app_version := device_info.bind fun i => i.app_version
    is_active := true
    last_seen_at := some now
    created_at := now
    updated_at := now }

/-- The device row as it exists after a fresh activation: the created
device, bound by `add_device` to the subscription id. -/
def boundActivationDevice (s : Subscription) (device_id : String)
    (device_info : Option DeviceInfo) (fresh_device_id : Nat) (now : Int) :
    Device :=
  { mkActivationDevice s device_id device_info fresh_device_id now with
    subscription_id := s.id }

/-- The subscription state persisted after a fresh activation. -/
def subAfterFreshActivation (s : Subscription) (device_id : String)
    (device_info : Option DeviceInfo) (fresh_device_id : Nat) (now : Int) :
    Subscription :=
  { s with
    devices := s.devices ++
      [boundActivationDevice s device_id device_info fresh_device_id now]
    updated_at := now }

/-- `SubscriptionService.activate_license`.  Raises `LicenseKeyInvalid` for
an unknown key, propagates `validate_for_activation`'s errors, creates or
touches the device row, persists, and signs a token. -/
def SubscriptionService.activate_license (store : List Subscription)
    (license_key device_id : String) (device_info : Option DeviceInfo)
    (kp : RSAKeyPair) (fresh_device_id jti : Nat) (now : Int) :
    Except DomainError (ActivateResponse × List Subscription) :=
  match subscriptionRepoGetByLicenseKey store license_key with
  | none => .error (.licenseKeyInvalid "License key not found")
  | some subscription =>
    match subscription.validate_for_activation device_id now with
    | .error e => .error e
    | .ok (outcome, sub2) =>
      match outcome with
      | .canActivate =>
        let device : Device :=
          mkActivationDevice subscription device_id device_info
            fresh_device_id now
        match sub2.add_device device now with
        | .error e => .error e
        | .ok sub3 =>
          let store2 := subscriptionRepoUpdate store sub3
          let token :=
            generate_subscription_token kp (sub3.to_token_payload device_id)
              now jti
          .ok ({ token
                 subscription := sub3
                 device := device
                 action := ActivationOutcome.canActivate.action
                 message := ActivationOutcome.canActivate.message
                 expires_at := sub3.expires_at }, store2)
      | .reactivated d =>
        let d2 := d.update_last_seen now
        let sub3 := sub2.updateDeviceById d2
        let store2 := deviceRepoUpdate store d2
        let token :=
          generate_subscription_token kp (sub3.to_token_payload device_id)
            now jti
        .ok ({ token
               subscription := sub3
               device := d2
               action := (ActivationOutcome.reactivated d).action
               message := (ActivationOutcome.reactivated d).message
               expires_at := sub3.expires_at }, store2)
      | .alreadyActive d =>
        let token :=
          generate_subscription_token kp (sub2.to_token_payload device_id)
            now jti
        .ok ({ token
               subscription := sub2
               device := d
               action := (ActivationOutcome.alreadyActive d).action
               message := (ActivationOutcome.alreadyActive d).message
               expires_at := sub2.expires_at }, store)

/-- The `reason` strings of `validate_license`'s negative results. -/
inductive InvalidReason where
  | device_not_activated
  | expired
  | inactive
deriving DecidableEq, Repr, Inhabited

/-- The dict returned by `SubscriptionService.validate_license`: either a
structured negative result (`valid=False` with a reason, plus `expires_at`
on the subscription-inactive branch) or a positive one. -/
inductive ValidateResult where
  | invalid (reason : InvalidReason) (expires_at : Option Int)
  | valid (in_grace_period : Bool) (days_until_expiry : Option Int)
      (features : List (String × FeatureVal))
deriving DecidableEq, Repr, Inhabited

/-- `SubscriptionService.validate_license`.  Raises `LicenseKeyInvalid` for
an unknown key; otherwise returns a structured result. -/
def SubscriptionService.validate_license (store : List Subscription)
    (license_key device_id : String) (update_last_seen : Bool) (now : Int) :
    Except DomainError (ValidateResult × List Subscription) :=
  match subscriptionRepoGetByLicenseKey store license_key with
  | none => .error (.licenseKeyInvalid "License key not found")
  | some subscription =>
    match subscription.get_device device_id with
    | none => .ok (.invalid .device_not_activated none, store)
    | some device =>
      if !device.is_active then
        .ok (.invalid .device_not_activated none, store)
      else if !subscription.is_active now then
        let status :=
          if subscription.is_expired now then InvalidReason.expired
          else InvalidReason.inactive
        .ok (.invalid status subscription.expires_at, store)
      else
        let store2 :=
          if update_last_seen then
            deviceRepoUpdate store (device.update_last_seen now)
          else store
        .ok (.valid (subscription.is_in_grace_period now)
              ((subscription.days_until_expiry now))
              subscription.feature_set.features, store2)

/-- `SubscriptionService.deactivate_device`: raises `LicenseKeyInvalid` for
an unknown key; otherwise `remove_device` and persist when it removed. -/
def SubscriptionService.deactivate_device (store : List Subscription)
    (license_key device_id : String) (now : Int) :
    Except DomainError (Bool × List Subscription) :=
  match subscriptionRepoGetByLicenseKey store license_key with
  | none => .error (.licenseKeyInvalid "License key not found")
  | some subscription =>
    match subscription.remove_device device_id now with
    | (true, sub2) => .ok (true, subscriptionRepoUpdate store sub2)
    | (false, _) => .ok (false, store)

/-- `Except.isOk` as a Bool, for stating success of fallible operations. -/
def exceptIsOk {ε α : Type} : Except ε α → Bool
  | .ok _ => true
  | .error _ => false

/-! ## Concrete fixtures -/

/-- The basic-tier feature set with no overrides. -/
def featBasic : FeatureSet := FeatureSet.make .basic none

/-- A device fixture that is active. -/
def devA : Device := { id := 1, subscription_id := 10, device_id := "dev-A" }

/-- A device fixture that is already inactive. -/
def devB : Device :=
  { id := 2, subscription_id := 10, device_id := "dev-B", is_active := false }

/-- Fixture: an active subscription owning one active and one inactive
device. -/
def resumeBugSub : Subscription :=
  { id := 10
    customer_id := 20
    license_key := "FL-AAAA-BBBB-CCCC-DDDD"
    tier := .basic
    status := .active
    max_devices := 2
    starts_at := 0
    expires_at := none
    grace_period_days := 7
    devices := [devA, devB]
    feature_set := featBasic }

/-- Fixture: a suspended subscription with no devices (not usable now, yet
not expired). -/
def suspendedSub : Subscription :=
  { id := 30
    customer_id := 40
    license_key := "FL-EEEE-FFFF-GGGG-HHHH"
    tier := .basic
    status := .suspended
    max_devices := 1
    starts_at := 0
    expires_at := none
    grace_period_days := 7
    devices := []
    feature_set := featBasic }

/-- Fixture: a usable subscription already at its device limit (one active
device out of `max_devices = 1`). -/
def fullSub : Subscription :=
  { id := 50
    customer_id := 60
    license_key := "FL-IIII-JJJJ-KKKK-LLLL"
    tier := .basic
    status := .active
    max_devices := 1
    starts_at := 0
    expires_at := none
    grace_period_days := 7
    devices := [{ id := 7, subscription_id := 50, device_id := "dev-other" }]
    feature_set := featBasic }

/-- The result of a concrete first activation call on `resumeBugSub`. -/
def firstActivationPair : ActivateResponse × List Subscription :=
  (SubscriptionService.activate_license [resumeBugSub]
      resumeBugSub.license_key "dev-A" none ⟨3⟩ 81 82 10).toOption.getD
    default

/-! ## Shared lemmas -/

/-- `is_active` in Boolean normal form. -/
lemma is_active_eq (s : Subscription) (now : Int) :
    s.is_active now =
      ((s.status == SubscriptionStatus.active) && decide (s.starts_at ≤ now) &&
        (match s.expires_at with
         | none => true
         | some e => decide (now ≤ e + daysToSec s.grace_period_days))) := by
  unfold Subscription.is_active
  by_cases hs : s.status = SubscriptionStatus.active
  · by_cases hlt : now < s.starts_at
    · cases hexp : s.expires_at <;> simp [hs, hexp, hlt, not_le.mpr hlt]
    · have hle : s.starts_at ≤ now := not_lt.mp hlt
      cases hexp : s.expires_at with
      | none => simp [hs, hexp, hlt, hle]
      | some e =>
        by_cases hgt : now > e + daysToSec s.grace_period_days
        · simp [hs, hexp, hlt, hle, hgt, not_le.mpr hgt]
        · simp [hs, hexp, hlt, hle, hgt, not_lt.mp hgt]
  · cases hexp : s.expires_at <;> simp [hs, hexp]

/-- `add_device` as a single conditional equation. -/
lemma add_device_eq (s : Subscription) (d : Device) (now : Int) :
    s.add_device d now =
      if (s.devices.filter fun x => x.is_active).length < s.max_devices then
        .ok { s with
              devices := s.devices ++ [{ d with subscription_id := s.id }]
              updated_at := now }
      else
        .error (.deviceLimitExceeded
          (s.devices.filter fun x => x.is_active).length s.max_devices) := by
  unfold Subscription.add_device Subscription.can_add_device
  by_cases h : (s.devices.filter fun x => x.is_active).length < s.max_devices <;>
    simp [h]

/-! ## Claims -/

/-- C5: `is_usable_now()` (source: `Subscription.is_active`) is true exactly
when the status is active, `now ≥ starts_at`, and either there is no expiry
or `now ≤ expires_at + grace_period`; in particular it is false whenever the
status is not active, regardless of the timing fields. -/
theorem is_usable_now_iff (s : Subscription) (now : Int) :
    s.is_active now = true ↔
      (s.status = SubscriptionStatus.active ∧ s.starts_at ≤ now ∧
        ∀ e, s.expires_at = some e →
          now ≤ e + daysToSec s.grace_period_days) := by
  rw [is_active_eq]
  cases hexp : s.expires_at <;> simp [hexp, and_assoc]

/-- C6: generally, `is_in_grace_period()` holds exactly when the expiry is
set and `expires_at < now ≤ expires_at + grace_period`; and for an active
subscription that already started, with `expires_at = now - 1 day`, both
`is_usable_now()` and `is_in_grace_period()` are true at grace 7 days and
false at grace 0. -/
theorem grace_period_spec (s : Subscription) (now : Int) :
    (s.is_in_grace_period now = true ↔
      ∃ e, s.expires_at = some e ∧ e < now ∧
        now ≤ e + daysToSec s.grace_period_days)
    ∧ (s.status = SubscriptionStatus.active → s.starts_at ≤ now →
        s.expires_at = some (now - 86400) →
        ((s.grace_period_days = 7 →
            s.is_active now = true ∧ s.is_in_grace_period now = true)
         ∧ (s.grace_period_days = 0 →
            s.is_active now = false ∧ s.is_in_grace_period now = false))) := by
  constructor
  · unfold Subscription.is_in_grace_period
    cases hexp : s.expires_at <;> simp [hexp]
  · intro hs hstart hexp
    constructor <;> intro hg <;>
      rw [is_active_eq] <;>
        simp [Subscription.is_in_grace_period, hs, hstart, hexp, hg,
          daysToSec] <;> omega

/-- C6 witness: concrete active subscriptions expired one day ago, with
grace periods 7 and 0. -/
theorem grace_period_spec_witness :
    ({ resumeBugSub with
        expires_at := some (950400 - 86400),
        grace_period_days := 7 }.is_active 950400 = true
      ∧ { resumeBugSub with
          expires_at := some (950400 - 86400),
          grace_period_days := 7 }.is_in_grace_period 950400 = true)
    ∧ ({ resumeBugSub with
          expires_at := some (950400 - 86400),
          grace_period_days := 0 }.is_active 950400 = false
        ∧ { resumeBugSub with
            expires_at := some (950400 - 86400),
            grace_period_days := 0 }.is_in_grace_period 950400 = false) := by
  constructor
  · exact ((grace_period_spec { resumeBugSub with
      expires_at := some (950400 - 86400), grace_period_days := 7 }
        950400).2 rfl (by decide) rfl).1 rfl
  · exact ((grace_period_spec { resumeBugSub with
      expires_at := some (950400 - 86400), grace_period_days := 0 }
        950400).2 rfl (by decide) rfl).2 rfl

/-- C4: `add_device` succeeds — appending the device bound to the
subscription id — exactly when the active-device count is strictly below
`max_devices`, and otherwise fails with `DeviceLimitExceeded` carrying the
current active count and the maximum. -/
theorem add_device_limit_spec (s : Subscription) (d : Device) (now : Int) :
    s.add_device d now =
      if (s.devices.filter fun x => x.is_active).length < s.max_devices then
        .ok { s with
              devices := s.devices ++ [{ d with subscription_id := s.id }]
              updated_at := now }
      else
        .error (.deviceLimitExceeded
          (s.devices.filter fun x => x.is_active).length s.max_devices) :=
  add_device_eq s d now

/-- C3 (code bug): on the fixture, device `dev-B` is inactive before
`cancel()`, yet `resume()` after `cancel()` flips it to active — `resume`
reactivates every inactive device, not just those active before the
cancellation, contradicting its own comment "Reactivate all devices that
were active before". -/
theorem resume_reactivates_never_active_device :
    (resumeBugSub.devices.map fun d => d.is_active) = [true, false]
    ∧ (((resumeBugSub.cancel 100).resume 200).devices.map
        fun d => d.is_active) = [true, true] := by
  constructor <;> rfl

/-- C8: verifying a token immediately after issuing it succeeds and returns
a payload carrying the input's subscription id, device id and feature map. -/
theorem verify_issue_roundtrip (kp : RSAKeyPair)
    (data : SubscriptionTokenData) (now : Int) (jti : Nat) (e : Int)
    (hexp : data.expires_at = some e) (hfut : now < e) :
    verify_subscription_token kp
        (generate_subscription_token kp data now jti) now
      = .ok (generate_subscription_token kp data now jti).payload
    ∧ (generate_subscription_token kp data now jti).payload.subscription_id
        = data.id
    ∧ (generate_subscription_token kp data now jti).payload.device_id
        = data.device_id
    ∧ (generate_subscription_token kp data now jti).payload.features
        = data.features := by
  refine ⟨?_, rfl, rfl, rfl⟩
  unfold verify_subscription_token generate_subscription_token
  simp [daysToSec]

/-- C8 witness: a concrete payload with a future expiry round-trips. -/
theorem verify_issue_roundtrip_witness :
    verify_subscription_token ⟨3⟩
        (generate_subscription_token ⟨3⟩
          ({ resumeBugSub with expires_at := some 7776000 }.to_token_payload
            "dev-A") 0 5) 0
      = .ok (generate_subscription_token ⟨3⟩
          ({ resumeBugSub with expires_at := some 7776000 }.to_token_payload
            "dev-A") 0 5).payload
    ∧ (generate_subscription_token ⟨3⟩
        ({ resumeBugSub with expires_at := some 7776000 }.to_token_payload
          "dev-A") 0 5).payload.subscription_id
        = ({ resumeBugSub with expires_at := some 7776000 }.to_token_payload
            "dev-A").id := by
  have h := verify_issue_roundtrip ⟨3⟩
    ({ resumeBugSub with expires_at := some 7776000 }.to_token_payload
      "dev-A") 0 5 7776000 rfl (by decide)
  exact ⟨h.1, h.2.1⟩

/-! ## License key codec lemmas -/

/-- `splitOnDash` never returns the empty list. -/
lemma splitOnDash_ne_nil (l : List Char) : splitOnDash l ≠ [] := by
  induction l with
  | nil => simp [splitOnDash]
  | cons c rest ih =>
    unfold splitOnDash
    cases hr : splitOnDash rest with
    | nil => exact absurd hr ih
    | cons p ps => by_cases hc : c = '-' <;> simp [hc]

/-- Splitting a dash-free string leaves it whole. -/
lemma splitOnDash_no_dash (xs : List Char) (h : '-' ∉ xs) :
    splitOnDash xs = [xs] := by
  induction xs with
  | nil => rfl
  | cons c rest ih =>
    have hc : ¬ c = '-' := fun hc => h (hc ▸ List.mem_cons_self c rest)
    have hrest : '-' ∉ rest := fun hm => h (List.mem_cons_of_mem c hm)
    rw [splitOnDash, ih hrest]
    simp [hc]

/-- Splitting peels off a dash-free head segment. -/
lemma splitOnDash_append (xs ys : List Char) (h : '-' ∉ xs) :
    splitOnDash (xs ++ '-' :: ys) = xs :: splitOnDash ys := by
  induction xs with
  | nil =>
    rw [List.nil_append, splitOnDash]
    cases hr : splitOnDash ys with
    | nil => exact absurd hr (splitOnDash_ne_nil ys)
    | cons p ps => simp
  | cons c rest ih =>
    have hc : ¬ c = '-' := fun hc => h (hc ▸ List.mem_cons_self c rest)
    have hrest : '-' ∉ rest := fun hm => h (List.mem_cons_of_mem c hm)
    rw [List.cons_append, splitOnDash, ih hrest]
    simp [hc]

/-- Every base64url character maps to an alphanumeric, non-dash character
under `transformChar`. -/
lemma transformChar_urlsafe :
    ∀ c ∈ urlsafeAlphabet,
      (transformChar c).isAlphanum = true ∧ ¬ transformChar c = '-' := by
  decide

/-- A generated segment contains no dash. -/
lemma segment_no_dash (g : Nat → Char) (hg : ∀ j, g j ∈ urlsafeAlphabet)
    (n : Nat) : '-' ∉ (List.range n).map fun j => transformChar (g j) := by
  intro hmem
  simp only [List.mem_map] at hmem
  obtain ⟨j, _, hj⟩ := hmem
  exact (transformChar_urlsafe _ (hg j)).2 hj

/-- A generated segment of positive length is `isalnum`. -/
lemma segment_isalnum (g : Nat → Char) (hg : ∀ j, g j ∈ urlsafeAlphabet)
    (n : Nat) (hn : 0 < n) :
    isalnumStr ((List.range n).map fun j => transformChar (g j)) = true := by
  unfold isalnumStr
  rw [Bool.and_eq_true]
  constructor
  · cases n with
    | zero => omega
    | succ m => simp [List.range_succ_eq_map]
  · rw [List.all_eq_true]
    intro c hc
    simp only [List.mem_map] at hc
    obtain ⟨j, _, hj⟩ := hc
    rw [← hj]
    exact (transformChar_urlsafe _ (hg j)).1

/-- A key of the shape `FL-p0-p1-p2-p3`, with dash-free alphanumeric
segments of length ≥ 4, passes `validate_license_key_format`. -/
lemma validate_format_of_parts (p0 p1 p2 p3 : List Char)
    (hd0 : '-' ∉ p0) (hd1 : '-' ∉ p1) (hd2 : '-' ∉ p2) (hd3 : '-' ∉ p3)
    (ha0 : isalnumStr p0 = true) (ha1 : isalnumStr p1 = true)
    (ha2 : isalnumStr p2 = true) (ha3 : isalnumStr p3 = true)
    (hl0 : 4 ≤ p0.length) (hl1 : 4 ≤ p1.length) (hl2 : 4 ≤ p2.length)
    (hl3 : 4 ≤ p3.length) :
    validate_license_key_format
      (['F', 'L'] ++ '-' :: (p0 ++ '-' :: (p1 ++ '-' :: (p2 ++ '-' :: p3))))
      = true := by
  have hsplit : splitOnDash
      (['F', 'L'] ++ '-' :: (p0 ++ '-' :: (p1 ++ '-' :: (p2 ++ '-' :: p3))))
      = [['F', 'L'], p0, p1, p2, p3] := by
    rw [splitOnDash_append _ _ (by decide), splitOnDash_append _ _ hd0,
      splitOnDash_append _ _ hd1, splitOnDash_append _ _ hd2,
      splitOnDash_no_dash _ hd3]
  simp only [validate_license_key_format, hsplit]
  simp [ha0, ha1, ha2, ha3, hl0, hl1, hl2, hl3]

/-- C7 counterexample: `validate_format(generate(prefix))` fails for the
prefix `"AB"`, because the validator requires the first segment to be
exactly `"FL"`. -/
theorem generate_validate_fails_for_other_prefix :
    validate_license_key_format
      (generate_license_key ['A', 'B'] 32 (fun _ => 'A')) = false := by
  decide

/-- C7 (amended): for the deployment prefix `"FL"` and the default key
length 32, any key generated from a base64url-ranged random source passes
`validate_license_key_format` (5 segments, prefix `FL`, four 6-character
uppercase-alphanumeric segments), and `validate_format("FL-AB")` — too few
segments — is false. -/
theorem generate_validate_roundtrip_FL (rand : Nat → Char)
    (hrand : ∀ i, rand i ∈ urlsafeAlphabet) :
    validate_license_key_format (generate_license_key ['F', 'L'] 32 rand)
      = true
    ∧ validate_license_key_format ['F', 'L', '-', 'A', 'B'] = false := by
  refine ⟨?_, by decide⟩
  have hkey : generate_license_key ['F', 'L'] 32 rand
      = ['F', 'L'] ++ '-' ::
          (((List.range 6).map fun j => transformChar (rand (0 * 6 + j)))
            ++ '-' ::
          (((List.range 6).map fun j => transformChar (rand (1 * 6 + j)))
            ++ '-' ::
          (((List.range 6).map fun j => transformChar (rand (2 * 6 + j)))
            ++ '-' ::
          ((List.range 6).map fun j => transformChar (rand (3 * 6 + j)))))) :=
    rfl
  rw [hkey]
  exact validate_format_of_parts _ _ _ _
    (segment_no_dash _ (fun j => hrand _) 6)
    (segment_no_dash _ (fun j => hrand _) 6)
    (segment_no_dash _ (fun j => hrand _) 6)
    (segment_no_dash _ (fun j => hrand _) 6)
    (segment_isalnum _ (fun j => hrand _) 6 (by omega))
    (segment_isalnum _ (fun j => hrand _) 6 (by omega))
    (segment_isalnum _ (fun j => hrand _) 6 (by omega))
    (segment_isalnum _ (fun j => hrand _) 6 (by omega))
    (by simp) (by simp) (by simp) (by simp)

/-- C7 witness: a concrete random source drawing only `'a'`. -/
theorem generate_validate_roundtrip_FL_witness :
    validate_license_key_format
        (generate_license_key ['F', 'L'] 32 (fun _ => 'a')) = true
    ∧ validate_license_key_format ['F', 'L', '-', 'A', 'B'] = false :=
  generate_validate_roundtrip_FL (fun _ => 'a')
    (fun _ => show 'a' ∈ urlsafeAlphabet by decide)

/-! ## Device removal lemmas -/

/-- `removeFirstMatch` finds a device exactly when some device has the
client id (active or not). -/
lemma removeFirstMatch_isSome (l : List Device) (did : String) (now : Int) :
    (removeFirstMatch l did now).isSome
      = l.any fun d => d.device_id == did := by
  induction l with
  | nil => rfl
  | cons d rest ih =>
    rw [removeFirstMatch]
    by_cases hd : (d.device_id == did) = true
    · simp [hd]
    · simp only [Bool.not_eq_true] at hd
      simp [hd, ih]

/-- `removeFirstMatch` preserves the sequence of client device ids. -/
lemma removeFirstMatch_map_id (l : List Device) (did : String) (now : Int)
    (ds : List Device) (h : removeFirstMatch l did now = some ds) :
    ds.map (fun d => d.device_id) = l.map fun d => d.device_id := by
  induction l generalizing ds with
  | nil => exact absurd h (by simp [removeFirstMatch])
  | cons d rest ih =>
    rw [removeFirstMatch] at h
    by_cases hd : (d.device_id == did) = true
    · rw [if_pos hd] at h
      cases h
      simp [Device.deactivate]
    · rw [if_neg hd] at h
      cases hr : removeFirstMatch rest did now with
      | none => rw [hr] at h; cases h
      | some ds2 =>
        rw [hr] at h
        cases h
        simp [ih ds2 hr]

/-- `removeFirstMatch` deactivates exactly the first matching device. -/
lemma removeFirstMatch_decomp (pre : List Device) (d : Device)
    (post : List Device) (did : String) (now : Int)
    (hpre : ∀ x ∈ pre, (x.device_id == did) = false)
    (hd : (d.device_id == did) = true) :
    removeFirstMatch (pre ++ d :: post) did now
      = some (pre ++ d.deactivate now :: post) := by
  induction pre with
  | nil => simp [removeFirstMatch, hd]
  | cons x rest ih =>
    have hx : (x.device_id == did) = false := hpre x (List.mem_cons_self x rest)
    have hrest : ∀ y ∈ rest, (y.device_id == did) = false :=
      fun y hy => hpre y (List.mem_cons_of_mem x hy)
    rw [List.cons_append, removeFirstMatch]
    simp [hx, ih hrest]

/-- C10: `remove_device` returns true exactly when some device carries the
client id — in particular an already-inactive device still yields true, so
deactivating twice returns true both times; only the first matching device
is flipped; and the service's `deactivate_device` surfaces that boolean. -/
theorem remove_device_spec (s : Subscription) (did : String) (t1 t2 : Int) :
    ((s.remove_device did t1).1 = s.devices.any fun d => d.device_id == did)
    ∧ (((s.remove_device did t1).2.remove_device did t2).1
        = s.devices.any fun d => d.device_id == did)
    ∧ (∀ pre d post, s.devices = pre ++ d :: post →
        (∀ x ∈ pre, (x.device_id == did) = false) →
        (d.device_id == did) = true →
        (s.remove_device did t1).2.devices = pre ++ d.deactivate t1 :: post)
    ∧ (∀ store,
        subscriptionRepoGetByLicenseKey store s.license_key = some s →
        ∃ store2,
          SubscriptionService.deactivate_device store s.license_key did t1
            = .ok ((s.devices.any fun d => d.device_id == did), store2)) := by
  have hiss := removeFirstMatch_isSome s.devices did t1
  have hany_map : ∀ l : List Device,
      (l.any fun d => d.device_id == did)
        = (l.map fun d => d.device_id).any fun x => x == did := by
    intro l
    induction l with
    | nil => rfl
    | cons d rest ih => simp [ih]
  have hany_congr : ∀ l1 l2 : List Device,
      (l1.map fun d => d.device_id) = (l2.map fun d => d.device_id) →
      (l1.any fun d => d.device_id == did)
        = l2.any fun d => d.device_id == did := by
    intro l1 l2 h
    rw [hany_map, hany_map, h]
  refine ⟨?_, ?_, ?_, ?_⟩
  · cases hr : removeFirstMatch s.devices did t1 <;>
      rw [hr] at hiss <;> simp [Subscription.remove_device, hr, ← hiss]
  · cases hr : removeFirstMatch s.devices did t1 with
    | none =>
      rw [hr] at hiss
      have h2 := removeFirstMatch_isSome s.devices did t2
      cases hr2 : removeFirstMatch s.devices did t2 <;> rw [hr2] at h2 <;>
        simp [Subscription.remove_device, hr, hr2, ← h2]
    | some ds =>
      rw [hr] at hiss
      have hmap := removeFirstMatch_map_id s.devices did t1 ds hr
      have hds : (ds.any fun d => d.device_id == did)
          = s.devices.any fun d => d.device_id == did :=
        hany_congr ds s.devices hmap
      have h2 := removeFirstMatch_isSome ds did t2
      cases hr2 : removeFirstMatch ds did t2 with
      | none =>
        rw [hr2] at h2
        rw [← hds, ← h2]
        simp [Subscription.remove_device, hr, hr2]
      | some ds2 =>
        rw [hr2] at h2
        rw [← hds, ← h2]
        simp [Subscription.remove_device, hr, hr2]
  · intro pre d post hdev hpre hd
    have := removeFirstMatch_decomp pre d post did t1 hpre hd
    rw [← hdev] at this
    simp [Subscription.remove_device, this]
  · intro store hfind
    unfold SubscriptionService.deactivate_device
    rw [hfind]
    cases hr : removeFirstMatch s.devices did t1 with
    | none =>
      rw [hr] at hiss
      simp [Subscription.remove_device, hr, ← hiss]
    | some ds =>
      rw [hr] at hiss
      simp [Subscription.remove_device, hr, ← hiss]

/-- C10 witness: removing the already-inactive device `dev-B` twice returns
true both times, only flips `dev-B`, and the service reports true. -/
theorem remove_device_spec_witness :
    ((resumeBugSub.remove_device "dev-B" 5).1 = true)
    ∧ (((resumeBugSub.remove_device "dev-B" 5).2.remove_device "dev-B" 6).1
        = true)
    ∧ ((resumeBugSub.remove_device "dev-B" 5).2.devices
        = [devA] ++ devB.deactivate 5 :: [])
    ∧ (∃ store2,
        SubscriptionService.deactivate_device [resumeBugSub]
            resumeBugSub.license_key "dev-B" 5
          = .ok (true, store2)) := by
  have h := remove_device_spec resumeBugSub "dev-B" 5 6
  have hany : (resumeBugSub.devices.any fun d => d.device_id == "dev-B")
      = true := by decide
  refine ⟨h.1.trans hany, (h.2.1).trans hany, ?_, ?_⟩
  · exact h.2.2.1 [devA] devB [] rfl (by decide) (by decide)
  · obtain ⟨st2, hst⟩ := h.2.2.2 [resumeBugSub] (by rfl)
    rw [hany] at hst
    exact ⟨st2, hst⟩

/-! ## Validation service claims -/

/-- C1 counterexample: when the license key resolves to no subscription,
`validate_license` raises `LicenseKeyInvalidException` — it does not return
a structured `valid=false` result. -/
theorem validate_raises_on_unknown_key :
    SubscriptionService.validate_license [] "FL-AAAA-BBBB-CCCC-DDDD" "dev-A"
        true 0
      = .error (.licenseKeyInvalid "License key not found") := rfl

/-- C1 (amended): once the license key resolves to a subscription,
`validate_license` never raises: it returns a structured result; whenever
the subscription is expired or otherwise unusable the result is a negative
one (`valid=false` with a reason code); and whenever the device is absent
from the subscription or inactive, the result is `valid=false` with reason
`device_not_activated`.  A key resolving to no subscription instead raises
`LicenseKeyInvalid`. -/
theorem validate_structured_when_key_resolves (store : List Subscription)
    (key did : String) (uls : Bool) (now : Int) (s : Subscription)
    (hfind : subscriptionRepoGetByLicenseKey store key = some s) :
    (∃ r store2, SubscriptionService.validate_license store key did uls now
        = .ok (r, store2))
    ∧ (s.is_active now = false →
        ∃ reason ea store2,
          SubscriptionService.validate_license store key did uls now
            = .ok (.invalid reason ea, store2))
    ∧ ((s.get_device did = none
        ∨ ∃ d, s.get_device did = some d ∧ d.is_active = false) →
        ∃ store2,
          SubscriptionService.validate_license store key did uls now
            = .ok (.invalid .device_not_activated none, store2)) := by
  unfold SubscriptionService.validate_license
  rw [hfind]
  cases hdev : s.get_device did with
  | none =>
    refine ⟨⟨.invalid .device_not_activated none, store, ?_⟩,
      fun _ => ⟨.device_not_activated, none, store, ?_⟩,
      fun _ => ⟨store, ?_⟩⟩ <;> simp [hdev]
  | some device =>
    cases hact : device.is_active with
    | false =>
      refine ⟨⟨.invalid .device_not_activated none, store, ?_⟩,
        fun _ => ⟨.device_not_activated, none, store, ?_⟩,
        fun _ => ⟨store, ?_⟩⟩ <;>
        simp [hdev, hact]
    | true =>
      have hdevcase : ¬ ((some device : Option Device) = none
          ∨ ∃ d, (some device : Option Device) = some d
              ∧ d.is_active = false) := by
        rintro (hnone | ⟨d, hd, hdf⟩)
        · cases hnone
        · cases Option.some.inj hd
          rw [hact] at hdf
          cases hdf
      cases hsub : s.is_active now with
      | false =>
        refine ⟨⟨.invalid (if s.is_expired now then InvalidReason.expired
            else InvalidReason.inactive) s.expires_at, store, ?_⟩,
          fun _ => ⟨(if s.is_expired now then InvalidReason.expired
            else InvalidReason.inactive), s.expires_at, store, ?_⟩,
          fun hc => absurd hc hdevcase⟩ <;>
          simp [hdev, hact, hsub]
      | true =>
        refine ⟨⟨.valid (s.is_in_grace_period now) (s.days_until_expiry now)
            s.feature_set.features,
            (if uls then deviceRepoUpdate store (device.update_last_seen now)
              else store), ?_⟩,
          fun hfalse => absurd hfalse (by simp [hsub]),
          fun hc => absurd hc hdevcase⟩
        simp [hdev, hact, hsub]

/-- C1 witness: a suspended subscription with a bound active device yields a
structured negative result, and an inactive device on a usable subscription
yields `valid=false` with reason `device_not_activated`. -/
theorem validate_structured_when_key_resolves_witness :
    (∃ reason ea store2,
      SubscriptionService.validate_license
          [{ resumeBugSub with status := .suspended }]
          "FL-AAAA-BBBB-CCCC-DDDD" "dev-A" true 50
        = .ok (.invalid reason ea, store2))
    ∧ (∃ store2,
      SubscriptionService.validate_license [resumeBugSub]
          "FL-AAAA-BBBB-CCCC-DDDD" "dev-B" true 50
        = .ok (.invalid .device_not_activated none, store2)) :=
  ⟨(validate_structured_when_key_resolves
      [{ resumeBugSub with status := .suspended }] "FL-AAAA-BBBB-CCCC-DDDD"
      "dev-A" true 50 { resumeBugSub with status := .suspended }
      (by rfl)).2.1 (by decide),
   (validate_structured_when_key_resolves [resumeBugSub]
      "FL-AAAA-BBBB-CCCC-DDDD" "dev-B" true 50 resumeBugSub
      (by rfl)).2.2 (Or.inr ⟨devB, by rfl, by rfl⟩)⟩

/-- C2 counterexample: a suspended subscription — `is_usable_now()` false —
still activates successfully and receives a signed token. -/
theorem activate_succeeds_on_unusable_subscription :
    suspendedSub.is_active 1000 = false
    ∧ exceptIsOk (SubscriptionService.activate_license [suspendedSub]
        "FL-EEEE-FFFF-GGGG-HHHH" "dev-new" none ⟨3⟩ 99 7 1000) = true := by
  exact ⟨rfl, rfl⟩

/-- C2 (amended): `activate_license` checks `is_expired()` (past
expiry + grace) on the resolved subscription before binding a device and
issuing a token: it fails with `SubscriptionExpired` exactly when the
subscription is expired.  It does not consult `is_usable_now()`, so a
non-expired subscription whose status is not active can still activate
(see the counterexample). -/
theorem activate_expiry_check (store : List Subscription) (key did : String)
    (info : Option DeviceInfo) (kp : RSAKeyPair) (fid jti : Nat) (now : Int)
    (s : Subscription)
    (hfind : subscriptionRepoGetByLicenseKey store key = some s) :
    (SubscriptionService.activate_license store key did info kp fid jti now
        = .error (.subscriptionExpired s.id s.expires_at))
      ↔ s.is_expired now = true := by
  constructor
  · intro h
    by_contra hexpired
    rw [Bool.not_eq_true] at hexpired
    unfold SubscriptionService.activate_license at h
    rw [hfind] at h
    simp only [] at h
    unfold Subscription.validate_for_activation at h
    rw [hexpired] at h
    simp only [Bool.false_eq_true, if_false] at h
    cases hdev : s.get_device did with
    | some device =>
      rw [hdev] at h
      simp only [] at h
      cases hact : device.is_active <;> rw [hact] at h <;> simp at h
    | none =>
      rw [hdev] at h
      simp only [] at h
      cases hcan : s.can_add_device with
      | false => rw [hcan] at h; simp at h
      | true =>
        rw [hcan] at h
        simp only [Bool.not_true, Bool.false_eq_true, if_false] at h
        simp only [add_device_eq] at h
        by_cases hlim :
            (s.devices.filter fun x => x.is_active).length < s.max_devices <;>
          simp [hlim] at h
  · intro hexpired
    have hv : s.validate_for_activation did now
        = .error (.subscriptionExpired s.id s.expires_at) := by
      unfold Subscription.validate_for_activation
      rw [hexpired]
      simp
    unfold SubscriptionService.activate_license
    rw [hfind]
    simp [hv]

/-- C2 witness: an expired subscription fails activation with
`SubscriptionExpired`. -/
theorem activate_expiry_check_witness :
    SubscriptionService.activate_license
        [{ resumeBugSub with expires_at := some 0, grace_period_days := 0 }]
        "FL-AAAA-BBBB-CCCC-DDDD" "dev-X" none ⟨1⟩ 5 6 1000000
      = .error (.subscriptionExpired 10 (some 0)) :=
  (activate_expiry_check
    [{ resumeBugSub with expires_at := some 0, grace_period_days := 0 }]
    "FL-AAAA-BBBB-CCCC-DDDD" "dev-X" none ⟨1⟩ 5 6 1000000
    { resumeBugSub with expires_at := some 0, grace_period_days := 0 }
    (by rfl)).mpr (by decide)

/-! ## Idempotent activation lemmas -/

/-- `find?` skips a prefix in which nothing matches. -/
lemma find?_append_none {α : Type} (p : α → Bool) (l1 l2 : List α)
    (h : l1.find? p = none) : (l1 ++ l2).find? p = l2.find? p := by
  induction l1 with
  | nil => rfl
  | cons a t ih =>
    rw [List.find?_eq_none] at h
    have ha : ¬ p a = true := h a (List.mem_cons_self a t)
    have ht : t.find? p = none := by
      rw [List.find?_eq_none]
      exact fun x hx => h x (List.mem_cons_of_mem a hx)
    rw [List.cons_append, List.find?_cons_of_neg _ ha, ih ht]

/-- Replacing, by primary key, the first device matching a client id with a
device that still matches it: the replacement becomes the first match, and
the number of matching devices is unchanged (device primary keys must be
distinct, as database rows are). -/
lemma update_by_id_preserves (did : String) (d d2 : Device)
    (hid : d2.id = d.id) (hdid : (d2.device_id == did) = true) :
    ∀ l : List Device,
      l.find? (fun x => x.device_id == did) = some d →
      ((l.map fun x => x.id).Nodup) →
      ((l.map fun x => if x.id == d2.id then d2 else x).find?
          (fun x => x.device_id == did)) = some d2
      ∧ ((l.map fun x => if x.id == d2.id then d2 else x).filter
          (fun x => x.device_id == did)).length
        = (l.filter fun x => x.device_id == did).length := by
  intro l
  induction l with
  | nil => intro hfind _; simp at hfind
  | cons y t ih =>
    intro hfind hnodup
    rw [List.map_cons] at hnodup
    obtain ⟨hy_notin, ht_nodup⟩ := List.nodup_cons.mp hnodup
    rw [List.map_cons]
    by_cases hy : (y.device_id == did) = true
    · have hd : y = d := by
        rw [List.find?_cons_of_pos (p := fun x : Device => x.device_id == did) _ hy]
          at hfind
        exact Option.some.inj hfind
      subst hd
      have hyid : (y.id == d2.id) = true := by simp [hid]
      rw [if_pos hyid]
      have htail : (t.map fun x => if x.id == d2.id then d2 else x) = t := by
        have hfix : ∀ x ∈ t, (if x.id == d2.id then d2 else x) = x := by
          intro x hx
          have hxne : ¬ x.id = d2.id := by
            rw [hid]
            intro hEq
            exact hy_notin (by rw [← hEq]; exact List.mem_map_of_mem _ hx)
          simp [hxne]
        rw [List.map_congr_left hfix]
        simp
      rw [htail]
      refine ⟨List.find?_cons_of_pos (p := fun x : Device => x.device_id == did) _ hdid,
        ?_⟩
      rw [List.filter_cons_of_pos (p := fun x : Device => x.device_id == did) hdid,
        List.filter_cons_of_pos (p := fun x : Device => x.device_id == did) hy]
      simp
    · rw [Bool.not_eq_true] at hy
      have hfind' : t.find? (fun x => x.device_id == did) = some d := by
        rwa [List.find?_cons_of_neg (p := fun x : Device => x.device_id == did) _
          (by simp [hy])] at hfind
      have hdmem : d ∈ t := List.mem_of_find?_eq_some hfind'
      have hyne : ¬ y.id = d2.id := by
        rw [hid]
        intro hEq
        exact hy_notin (by rw [hEq]; exact List.mem_map_of_mem _ hdmem)
      obtain ⟨ih1, ih2⟩ := ih hfind' ht_nodup
      rw [if_neg (by simp [hyne])]
      refine ⟨?_, ?_⟩
      · rw [List.find?_cons_of_neg (p := fun x : Device => x.device_id == did) _
          (by simp [hy])]
        exact ih1
      · rw [List.filter_cons_of_neg (p := fun x : Device => x.device_id == did)
            (by simp [hy]),
          List.filter_cons_of_neg (p := fun x : Device => x.device_id == did)
            (by simp [hy])]
        exact ih2

/-- When the key resolves to a non-expired subscription on which the device
is already bound and active, `activate_license` short-circuits to
`already_active` without touching the store. -/
lemma activate_already_active (store : List Subscription) (key did : String)
    (info : Option DeviceInfo) (kp : RSAKeyPair) (fid jti : Nat) (t : Int)
    (s : Subscription) (d : Device)
    (hfind : subscriptionRepoGetByLicenseKey store key = some s)
    (hexp : s.is_expired t = false)
    (hdev : s.get_device did = some d)
    (hact : d.is_active = true) :
    SubscriptionService.activate_license store key did info kp fid jti t
      = .ok ({ token := generate_subscription_token kp
                 (s.to_token_payload did) t jti
               subscription := s
               device := d
               action := "already_active"
               message := "Device is already activated"
               expires_at := s.expires_at }, store) := by
  have hv : s.validate_for_activation did t = .ok (.alreadyActive d, s) := by
    unfold Subscription.validate_for_activation
    rw [hexp]
    simp only [Bool.false_eq_true, if_false]
    rw [hdev]
    simp [hact]
  unfold SubscriptionService.activate_license
  rw [hfind]
  simp [hv, ActivationOutcome.action, ActivationOutcome.message]

/-- C9 counterexample: for a usable subscription already at its device
limit, both activation attempts for a fresh device id raise
`DeviceLimitExceeded` — the second call does not return `already_active`. -/
theorem activate_twice_at_device_limit :
    fullSub.is_active 100 = true
    ∧ SubscriptionService.activate_license [fullSub] "FL-IIII-JJJJ-KKKK-LLLL"
        "dev-1" none ⟨3⟩ 71 72 100
      = .error (.deviceLimitExceeded 1 1)
    ∧ SubscriptionService.activate_license [fullSub] "FL-IIII-JJJJ-KKKK-LLLL"
        "dev-1" none ⟨3⟩ 73 74 200
      = .error (.deviceLimitExceeded 1 1) := by
  exact ⟨rfl, rfl, rfl⟩

/-- C9 (amended): for a subscription whose first activation call for a
device id succeeds (and which is not expired at the time of the second
call), a second `activate_license` with the same license key and device id
returns `action="already_active"`, and the device list still has at most
one entry for that device id (device primary keys assumed distinct, and at
most one prior entry for the id, as the service maintains). -/
theorem activate_idempotent (s : Subscription) (did : String)
    (info : Option DeviceInfo) (kp : RSAKeyPair) (fid1 fid2 jti1 jti2 : Nat)
    (t1 t2 : Int) (resp1 : ActivateResponse) (store1 : List Subscription)
    (h1 : SubscriptionService.activate_license [s] s.license_key did info kp
        fid1 jti1 t1 = .ok (resp1, store1))
    (hexp2 : s.is_expired t2 = false)
    (hdup : (s.devices.filter fun d => d.device_id == did).length ≤ 1)
    (hids : (s.devices.map fun d => d.id).Nodup) :
    ∃ resp2 store2,
      SubscriptionService.activate_license store1 s.license_key did info kp
          fid2 jti2 t2 = .ok (resp2, store2)
      ∧ resp2.action = "already_active"
      ∧ (resp2.subscription.devices.filter
          fun d => d.device_id == did).length ≤ 1 := by
  have hfind1 : subscriptionRepoGetByLicenseKey [s] s.license_key
      = some s := by
    simp [subscriptionRepoGetByLicenseKey]
  unfold SubscriptionService.activate_license at h1
  rw [hfind1] at h1
  simp only [] at h1
  unfold Subscription.validate_for_activation at h1
  cases hexp1 : s.is_expired t1 with
  | true => rw [hexp1] at h1; simp at h1
  | false =>
    rw [hexp1] at h1
    simp only [Bool.false_eq_true, if_false] at h1
    cases hdev : s.get_device did with
    | some device =>
      have hdid : (device.device_id == did) = true :=
        List.find?_some (p := fun d : Device => d.device_id == did)
          (show s.devices.find?
            (fun d => d.device_id == did) = some device from hdev)
      rw [hdev] at h1
      simp only [] at h1
      cases hact : device.is_active with
      | true =>
        rw [hact] at h1
        simp only [eq_self_iff_true, if_true, Except.ok.injEq,
          Prod.mk.injEq] at h1
        obtain ⟨hresp, hstore⟩ := h1
        subst hstore
        exact ⟨_, _,
          activate_already_active [s] s.license_key did info kp fid2 jti2 t2
            s device hfind1 hexp2 hdev hact, rfl, hdup⟩
      | false =>
        rw [hact] at h1
        simp only [Bool.false_eq_true, if_false, Except.ok.injEq,
          Prod.mk.injEq] at h1
        obtain ⟨hresp, hstore⟩ := h1
        subst hstore
        obtain ⟨hfindUpd, hcountUpd⟩ :=
          update_by_id_preserves did device
            ((device.activate t1).update_last_seen t1) rfl hdid s.devices
            hdev hids
        refine ⟨_, _,
          activate_already_active _ s.license_key did info kp fid2 jti2 t2
            { s with devices := s.devices.map fun x =>
                if x.id == ((device.activate t1).update_last_seen t1).id
                then (device.activate t1).update_last_seen t1 else x }
            ((device.activate t1).update_last_seen t1)
            (by simp [subscriptionRepoGetByLicenseKey, deviceRepoUpdate])
            hexp2 hfindUpd rfl, rfl, ?_⟩
        exact le_trans (le_of_eq hcountUpd) hdup
    | none =>
      rw [hdev] at h1
      simp only [] at h1
      cases hcan : s.can_add_device with
      | false => rw [hcan] at h1; simp at h1
      | true =>
        have hlim : (s.devices.filter fun x => x.is_active).length
            < s.max_devices := by
          have h := hcan
          unfold Subscription.can_add_device at h
          exact of_decide_eq_true h
        rw [hcan] at h1
        simp only [Bool.not_true, Bool.false_eq_true, if_false] at h1
        simp only [add_device_eq, if_pos hlim] at h1
        simp only [subscriptionRepoUpdate, List.map_cons, List.map_nil,
          beq_self_eq_true, if_true, Except.ok.injEq, Prod.mk.injEq] at h1
        obtain ⟨hresp, hstore⟩ := h1
        have hfilnil : s.devices.filter (fun d => d.device_id == did)
            = [] := by
          rw [List.filter_eq_nil_iff]
          intro x hx
          have := List.find?_eq_none.mp (show s.devices.find?
            (fun d => d.device_id == did) = none from hdev) x hx
          simpa using this
        have hfindNew : ∀ dn : Device, (dn.device_id == did) = true →
            ∀ tail : List Device,
            (s.devices ++ dn :: tail).find? (fun d => d.device_id == did)
              = some dn := by
          intro dn hdn tail
          rw [find?_append_none _ _ _ (show s.devices.find?
            (fun d => d.device_id == did) = none from hdev)]
          exact List.find?_cons_of_pos (p := fun d : Device =>
            d.device_id == did) _ hdn
        subst hstore
        refine ⟨_, _,
          activate_already_active _ s.license_key did info kp fid2 jti2 t2
            (subAfterFreshActivation s did info fid1 t1)
            (boundActivationDevice s did info fid1 t1)
            (by simp [subscriptionRepoGetByLicenseKey, subAfterFreshActivation,
              boundActivationDevice, mkActivationDevice]) hexp2
            (hfindNew _ (by simp [boundActivationDevice, mkActivationDevice])
              []) rfl, rfl, ?_⟩
        simp [List.filter_append, hfilnil, subAfterFreshActivation,
          boundActivationDevice, mkActivationDevice]

/-- C9 witness: a concrete second activation for the already-active device
`dev-A` returns `already_active` with no duplicate device entry. -/
theorem activate_idempotent_witness :
    ∃ resp2 store2,
      SubscriptionService.activate_license firstActivationPair.2
          resumeBugSub.license_key "dev-A" none ⟨3⟩ 83 84 20
        = .ok (resp2, store2)
      ∧ resp2.action = "already_active"
      ∧ (resp2.subscription.devices.filter
          fun d => d.device_id == "dev-A").length ≤ 1 :=
  activate_idempotent resumeBugSub "dev-A" none ⟨3⟩ 81 83 82 84 10 20
    firstActivationPair.1 firstActivationPair.2 (by rfl) (by decide)
    (by decide) (by decide)

end Flowlytix
